import Mathlib

/-!
Verification of the `lsh` LLM-shell (`src/lsh.py`) against its specification.

The embedding models the pure logic of the source directly:
* Python string primitives (`str.strip`, `str.lower`, `str.split`, slicing)
  are implemented over `List Char`;
* `extract_code_block`'s regular expression search is implemented as an
  explicit scanning matcher with the same backtracking semantics;
* the operating system, `shlex.split`, `os.chdir`, `subprocess` and the
  LLM endpoint are abstracted as oracle fields of an `Env` record, and one
  iteration of `main`'s read-classify-dispatch loop (`mainStep`) records its
  observable actions as a list of `Event`s.
-/

namespace Lsh

/-- The set of whitespace characters trimmed by Python `str.strip()` /
split on by `str.split()` (the ASCII subset, which is what the shell
session ever feeds these functions). -/
def isPySpace (c : Char) : Bool :=
  c = ' ' || c = '\t' || c = '\n' || c = '\r' || c = '\x0b' || c = '\x0c'

/-- Python `str.strip()` on a character list. -/
def pyStripList (s : List Char) : List Char :=
  ((s.dropWhile isPySpace).reverse.dropWhile isPySpace).reverse

/-- Python `str.strip()`. -/
def pyStrip (s : String) : String :=
  String.mk (pyStripList s.data)

/-- Python `str.lower()` (ASCII case folding, which is all the
confirmation check `confirm.lower() == 'y'` depends on). -/
def pyLower (s : String) : String :=
  String.mk (s.data.map Char.toLower)

/-- Worker for Python `str.split()` with no separator: split on runs of
whitespace, discarding empty fields. -/
def pyWordsAux : List Char → List Char → List (List Char)
  | [], acc => if acc = [] then [] else [acc.reverse]
  | c :: cs, acc =>
    if isPySpace c then
      if acc = [] then pyWordsAux cs [] else acc.reverse :: pyWordsAux cs []
    else pyWordsAux cs (c :: acc)

/-- Python `str.split()` with no separator. -/
def pyWords (s : List Char) : List (List Char) :=
  pyWordsAux s []

/-- The `IGNORE_LIST` of raw-terminal programs, lsh.py lines 18-22
(a Python set; only membership is ever used). -/
def IGNORE_LIST : List String :=
  ["vi", "vim", "nvim", "nano", "emacs",
   "htop", "top", "nvtop", "btop", "k9s",
   "less", "more", "man", "ssh", "tmux", "screen"]

/-- Boolean test that `p` is an initial segment of `s`. -/
def startsWith : List Char → List Char → Bool
  | [], _ => true
  | _ :: _, [] => false
  | p :: ps, c :: cs => p = c && startsWith ps cs

theorem startsWith_length {p s : List Char} (h : startsWith p s = true) :
    p.length ≤ s.length := by
  induction p generalizing s with
  | nil => simp
  | cons a ps ih =>
    cases s with
    | nil => simp [startsWith] at h
    | cons b bs =>
      simp only [startsWith, Bool.and_eq_true] at h
      simpa using Nat.succ_le_succ (ih h.2)

/-- The opening/closing fence of the regex in lsh.py line 37. -/
def fence : List Char := "```".data

/-- The `(?:bash|sh)?\n` part of the regex at lsh.py line 37, positioned
right after an opening fence.  The regex alternation tries `bash`, then
`sh`, then the empty tag, each followed by a mandatory newline; the three
branches start with distinct characters, so the combined prefix tests are
exactly the backtracking semantics. -/
def tagNl (s : List Char) : Option (List Char) :=
  if startsWith ("bash\n".data) s then some (s.drop 5)
  else if startsWith ("sh\n".data) s then some (s.drop 3)
  else if startsWith ("\n".data) s then some (s.drop 1)
  else none

theorem tagNl_length {s r : List Char} (h : tagNl s = some r) :
    r.length ≤ s.length := by
  unfold tagNl at h
  split at h
  · cases h; simp [List.length_drop]
  · split at h
    · cases h; simp [List.length_drop]
    · split at h
      · cases h; simp [List.length_drop]
      · cases h

/-- The lazy `(.*?)` followed by the closing fence: split `s` at the
earliest occurrence of ```` ``` ````, returning the text before it and
the text after it. -/
def splitAtFence : List Char → Option (List Char × List Char)
  | [] => none
  | c :: cs =>
    if startsWith fence (c :: cs) then some ([], cs.drop 2)
    else
      match splitAtFence cs with
      | some (pre, rest) => some (c :: pre, rest)
      | none => none

theorem splitAtFence_length {s pre rest : List Char}
    (h : splitAtFence s = some (pre, rest)) : rest.length < s.length := by
  induction s generalizing pre rest with
  | nil => simp [splitAtFence] at h
  | cons c cs ih =>
    rw [splitAtFence] at h
    split at h
    · cases h
      simp only [List.length_drop, List.length_cons]
      omega
    · revert h
      cases hrec : splitAtFence cs with
      | none => intro h; cases h
      | some pr =>
        intro h
        cases pr with
        | mk p r =>
          cases h
          have := ih hrec
          simp only [List.length_cons]
          omega

/-- Attempt to match the whole regex ``(?:bash|sh)?\n(.*?)``` `` pattern
(with its opening fence) starting exactly at the head of `s`; on success
returns the captured interior and the remainder of the text after the
match (where `re.findall` resumes scanning). -/
def matchAt (s : List Char) : Option (List Char × List Char) :=
  if startsWith fence s then
    match tagNl (s.drop 3) with
    | some afterTag => splitAtFence afterTag
    | none => none
  else none

theorem matchAt_length {s interior rest : List Char}
    (h : matchAt s = some (interior, rest)) : rest.length < s.length := by
  unfold matchAt at h
  split at h
  · rename_i hf
    revert h
    cases ht : tagNl (s.drop 3) with
    | none => intro h; cases h
    | some afterTag =>
      intro h
      have h1 := splitAtFence_length h
      have h2 := tagNl_length ht
      have h3 : (3 : Nat) ≤ s.length := by
        have := startsWith_length hf
        simpa [fence] using this
      simp only [List.length_drop] at h2
      omega
  · cases h

/-- Fuelled scanner realizing `re.findall(pattern, text, re.DOTALL)`:
try a match at the current position; on success record the captured group
and resume after the match, otherwise advance one character.  Every
recursive call shrinks the text by at least one character, so fuel equal
to the text length never runs out. -/
def findBlocksF : Nat → List Char → List (List Char)
  | 0, _ => []
  | fuel + 1, s =>
    match matchAt s with
    | some (interior, rest) => interior :: findBlocksF fuel rest
    | none =>
      match s with
      | [] => []
      | _ :: cs => findBlocksF fuel cs

/-- All captured groups of the fenced-block regex, in textual order
(`re.findall` at lsh.py line 38). -/
def findBlocks (s : List Char) : List (List Char) :=
  findBlocksF s.length s

/-- `extract_code_block`, lsh.py lines 35-41: the first regex capture,
stripped; or the whole text stripped when there is no match. -/
def extract_code_block (text : String) : String :=
  match findBlocks text.data with
  | m :: _ => String.mk (pyStripList m)
  | [] => String.mk (pyStripList text.data)

/-- The output truncation of `ask_llm_for_fix`, lsh.py line 46:
`full_output[-2000:] if len(full_output) > 2000 else full_output`. -/
def pyTruncate (out : String) : String :=
  if out.length > 2000 then String.mk (out.data.drop (out.data.length - 2000))
  else out

/-- The advisory prompt of `ask_llm_for_fix`, lsh.py lines 48-56, with the
six concatenated f-string segments kept as written in the source. -/
def ask_llm_prompt (cmd out : String) (code : Int) : String :=
  "You are a helpful shell assistant.\n" ++
  "The user ran this command and it failed:\n" ++
  ("Command: `" ++ cmd ++ "`\n") ++
  ("Exit Code: " ++ toString code ++ "\n") ++
  ("Output/Error (last 1000 chars):\n```\n" ++ pyTruncate out ++ "\n```\n\n") ++
  "Provide ONLY the corrected shell command inside a ```bash``` code block. Do not explain unless necessary. If the command was a typo, fix the typo."

/-- Outcome of the `subprocess.run(cmd_list)` call inside
`run_interactive`: normal completion carrying the child's exit status,
`FileNotFoundError`, or any other exception. -/
inductive SpawnResult where
  | ok (childCode : Int)
  | notFound
  | error
deriving DecidableEq

/-- `run_interactive`, lsh.py lines 66-76.  On normal completion the
source returns the literal pair `0, ""`; the child's status carried by
the `SpawnResult` is not consulted. -/
def run_interactive (r : SpawnResult) : Int × String :=
  match r with
  | SpawnResult.ok _ => (0, "")
  | SpawnResult.notFound => (127, "")
  | SpawnResult.error => (1, "")

/-- One iteration of the `run_capturing` poll loop, lsh.py lines 101-123:
whether `select` reported the master side readable, the bytes `os.read`
returned if so (`[]` models end-of-file), whether `p.poll()` reported the
child dead, and the bytes the final drain read returned in that case. -/
structure PollIter where
  ready : Bool
  readData : List Nat
  dead : Bool
  drainData : List Nat

/-- The `run_capturing` relay loop over a schedule of poll iterations,
returning (bytes written to the live standard output, bytes accumulated
into `captured_output`).  An `OSError` aborting the loop is modelled by
the schedule simply ending. -/
def run_capturing_loop : List PollIter → List Nat × List Nat
  | [] => ([], [])
  | it :: rest =>
    if it.ready then
      if it.readData = [] then ([], [])
      else if it.dead then
        (it.readData ++ it.drainData, it.readData ++ it.drainData)
      else
        (it.readData ++ (run_capturing_loop rest).1,
         it.readData ++ (run_capturing_loop rest).2)
    else if it.dead then (it.drainData, it.drainData)
    else run_capturing_loop rest

/-- Classification of a command by its first token, per the branch
structure of `main`, lsh.py lines 161-177. -/
inductive CmdClass where
  | builtin
  | rawTerminal
  | capturable
deriving DecidableEq

/-- The classification implicit in `main`'s dispatch: `cd` is the only
built-in, the `IGNORE_LIST` names are raw-terminal, everything else is
capturable. -/
def classify (base : String) : CmdClass :=
  if base = "cd" then CmdClass.builtin
  else if base ∈ IGNORE_LIST then CmdClass.rawTerminal
  else CmdClass.capturable

/-- Observable actions of one `main`-loop iteration. -/
inductive Event where
  | chdirOk (target : String)
  | chdirErr (target : String)
  | runInteractive (tokens : List String) (code : Int)
  | runCapture (cmd : String) (code : Int) (output : String)
  | askLLM (prompt : String)
  | suggest (fix : String)
  | runFix (cmd : String) (code : Int)
deriving DecidableEq

/-- The environment `main` runs against.  Library and operating-system
calls made by the source are abstracted as deterministic oracles:
`shlexSplit` models `shlex.split` (`none` = `ValueError`), `exec` models
`run_capturing` on a full command string, `spawn` the `subprocess.run`
outcome inside `run_interactive`, `llm` the total result of
`ask_llm_for_fix`'s invoke-or-catch, `chdir` models `os.chdir` from a
given working directory (`none` = exception), `home` the value of
`os.path.expanduser("~")`, `confirm` the line read at the confirmation
prompt, and `agentMode` the `AGENT_MODE` flag. -/
structure Env where
  shlexSplit : String → Option (List String)
  exec : String → Int × String
  spawn : List String → SpawnResult
  llm : String → String
  chdir : String → String → Option String
  home : String
  confirm : String
  agentMode : Bool

/-- Result of one `main`-loop iteration: the working directory afterwards,
the recorded events, and whether the loop terminates (`break`). -/
structure StepResult where
  cwd : String
  events : List Event
  quits : Bool
deriving DecidableEq

/-- The `cd` target, lsh.py line 164:
`tokens[1] if len(tokens) > 1 else os.path.expanduser("~")`. -/
def cdTarget (env : Env) (tokens : List String) : String :=
  match tokens with
  | _ :: t :: _ => t
  | _ => env.home

/-- The advisory prompt built for a failed capturable command `ui`. -/
def promptOf (env : Env) (ui : String) : String :=
  ask_llm_prompt ui (env.exec ui).2 (env.exec ui).1

/-- The fix candidate extracted from the oracle's response. -/
def fixOf (env : Env) (ui : String) : String :=
  extract_code_block (env.llm (promptOf env ui))

/-- The events common to every failing capturable dispatch: the capturing
execution, the advisory consultation, and the printed suggestion. -/
def failEvents (env : Env) (ui : String) : List Event :=
  [Event.runCapture ui (env.exec ui).1 (env.exec ui).2,
   Event.askLLM (promptOf env ui),
   Event.suggest (fixOf env ui)]

/-- The dispatch section of `main`, lsh.py lines 161-195: built-in `cd`,
raw-terminal programs via `run_interactive`, and capturable commands via
`run_capturing` followed, on nonzero exit, by the advisory round and the
agent/confirm re-execution. -/
def dispatch (env : Env) (cwd ui : String) (tokens : List String) (base : String) :
    StepResult :=
  if base = "cd" then
    match env.chdir cwd (cdTarget env tokens) with
    | some newCwd => StepResult.mk newCwd [Event.chdirOk (cdTarget env tokens)] false
    | none => StepResult.mk cwd [Event.chdirErr (cdTarget env tokens)] false
  else if base ∈ IGNORE_LIST then
    StepResult.mk cwd [Event.runInteractive tokens (run_interactive (env.spawn tokens)).1] false
  else if (env.exec ui).1 ≠ 0 then
    if env.agentMode then
      StepResult.mk cwd
        (failEvents env ui ++ [Event.runFix (fixOf env ui) (env.exec (fixOf env ui)).1]) false
    else if pyLower env.confirm = "y" then
      StepResult.mk cwd
        (failEvents env ui ++ [Event.runFix (fixOf env ui) (env.exec (fixOf env ui)).1]) false
    else StepResult.mk cwd (failEvents env ui) false
  else StepResult.mk cwd [Event.runCapture ui (env.exec ui).1 (env.exec ui).2] false

/-- The first token used for classification, lsh.py lines 153-159: the
head of the `shlex.split` tokens, or on a `ValueError` the head of a naive
whitespace split; `none` when `shlex` returns an empty token list (the
`if not tokens: continue` case). -/
def baseCmdOf (env : Env) (ui : String) : Option String :=
  match env.shlexSplit ui with
  | some [] => none
  | some (t :: _) => some t
  | none => some (String.mk ((pyWords ui.data).headD []))

/-- The token list in scope at dispatch time: the `shlex.split` result,
or — after a `ValueError`, which leaves `tokens` unassigned — whatever
value the variable held from an earlier iteration (`stale`). -/
def tokensOf (env : Env) (stale : List String) (ui : String) : List String :=
  match env.shlexSplit ui with
  | some ts => ts
  | none => stale

/-- The base command of a dispatched iteration, or `none` when the
iteration dispatches nothing (empty input, `exit`/`quit`, or an empty
token list). -/
def mainBase (env : Env) (raw : String) : Option String :=
  if pyStrip raw = "" then none
  else if pyStrip raw = "exit" ∨ pyStrip raw = "quit" then none
  else baseCmdOf env (pyStrip raw)

/-- One iteration of the `main` loop, lsh.py lines 138-195, from reading
the raw input line to completing the dispatch. -/
def mainStep (env : Env) (stale : List String) (cwd raw : String) : StepResult :=
  if pyStrip raw = "" then StepResult.mk cwd [] false
  else if pyStrip raw = "exit" ∨ pyStrip raw = "quit" then StepResult.mk cwd [] true
  else
    match baseCmdOf env (pyStrip raw) with
    | none => StepResult.mk cwd [] false
    | some base => dispatch env cwd (pyStrip raw) (tokensOf env stale (pyStrip raw)) base

/-- Whether an event is an Advisory Client consultation. -/
def isAsk : Event → Bool
  | Event.askLLM _ => true
  | _ => false

/-- Whether an event is a re-execution of a fix candidate. -/
def isFix : Event → Bool
  | Event.runFix _ _ => true
  | _ => false

/-- Number of Advisory Client consultations in a trace. -/
def countAsk (es : List Event) : Nat := es.countP isAsk

/-- Number of fix re-executions in a trace. -/
def countFix (es : List Event) : Nat := es.countP isFix

/-- The target a `cd` dispatch handed to `os.chdir`, read off a step
result; `none` for any non-`cd` iteration. -/
def cdTargetUsed (r : StepResult) : Option String :=
  match r.events with
  | [Event.chdirOk t] => some t
  | [Event.chdirErr t] => some t
  | _ => none

/-- Tilde expansion as the specification describes it for the `cd`
argument (the behaviour of `os.path.expanduser` on `~`-prefixed paths,
stated from the spec's words to compare against what the code does). -/
def expanduserSpec (home p : String) : String :=
  if p = "~" then home
  else if startsWith ("~/".data) p.data then home ++ String.mk (p.data.drop 1)
  else p

theorem data_append (a b : String) : (a ++ b).data = a.data ++ b.data := by
  cases a; cases b; rfl

theorem mainStep_eq_dispatch {env : Env} {stale : List String} {cwd raw base : String}
    (hb : mainBase env raw = some base) :
    mainStep env stale cwd raw =
      dispatch env cwd (pyStrip raw) (tokensOf env stale (pyStrip raw)) base := by
  unfold mainBase at hb
  unfold mainStep
  by_cases h0 : pyStrip raw = ""
  · rw [if_pos h0] at hb; cases hb
  · rw [if_neg h0] at hb
    by_cases h1 : pyStrip raw = "exit" ∨ pyStrip raw = "quit"
    · rw [if_pos h1] at hb; cases hb
    · rw [if_neg h1] at hb
      rw [if_neg h0, if_neg h1, hb]

theorem mainStep_events_of_none {env : Env} {stale : List String} {cwd raw : String}
    (hb : mainBase env raw = none) :
    (mainStep env stale cwd raw).events = [] := by
  unfold mainBase at hb
  unfold mainStep
  by_cases h0 : pyStrip raw = ""
  · rw [if_pos h0]
  · rw [if_neg h0] at hb
    rw [if_neg h0]
    by_cases h1 : pyStrip raw = "exit" ∨ pyStrip raw = "quit"
    · rw [if_pos h1]
    · rw [if_neg h1] at hb
      rw [if_neg h1, hb]

theorem mainBase_eq_of_shlex {env : Env} {raw t : String} {ts : List String}
    (h0 : pyStrip raw ≠ "") (h1 : pyStrip raw ≠ "exit") (h2 : pyStrip raw ≠ "quit")
    (hs : env.shlexSplit (pyStrip raw) = some (t :: ts)) :
    mainBase env raw = some t := by
  unfold mainBase baseCmdOf
  rw [if_neg h0, if_neg (not_or.mpr ⟨h1, h2⟩), hs]

theorem countAsk_dispatch (env : Env) (cwd ui : String) (toks : List String) (base : String) :
    countAsk (dispatch env cwd ui toks base).events =
      if classify base = CmdClass.capturable ∧ (env.exec ui).1 ≠ 0 then 1 else 0 := by
  unfold dispatch classify
  by_cases h1 : base = "cd"
  · rw [if_pos h1, if_pos h1, if_neg (by rintro ⟨h, -⟩; cases h)]
    cases env.chdir cwd (cdTarget env toks) <;> rfl
  · rw [if_neg h1, if_neg h1]
    by_cases h2 : base ∈ IGNORE_LIST
    · rw [if_pos h2, if_pos h2, if_neg (by rintro ⟨h, -⟩; cases h)]
      rfl
    · rw [if_neg h2, if_neg h2]
      by_cases h3 : (env.exec ui).1 ≠ 0
      · have hcap : CmdClass.capturable = CmdClass.capturable ∧ (env.exec ui).1 ≠ 0 :=
          ⟨rfl, h3⟩
        rw [if_pos h3, if_pos hcap]
        by_cases h4 : env.agentMode
        · rw [if_pos h4]; rfl
        · rw [if_neg h4]
          by_cases h5 : pyLower env.confirm = "y"
          · rw [if_pos h5]; rfl
          · rw [if_neg h5]; rfl
      · have hcap : ¬(CmdClass.capturable = CmdClass.capturable ∧ (env.exec ui).1 ≠ 0) :=
          fun h => h3 h.2
        rw [if_neg h3, if_neg hcap]
        rfl

theorem countFix_dispatch (env : Env) (cwd ui : String) (toks : List String) (base : String) :
    countFix (dispatch env cwd ui toks base).events =
      if classify base = CmdClass.capturable ∧ (env.exec ui).1 ≠ 0 ∧
          (env.agentMode = true ∨ pyLower env.confirm = "y") then 1 else 0 := by
  unfold dispatch classify
  by_cases h1 : base = "cd"
  · rw [if_pos h1, if_pos h1, if_neg (by rintro ⟨h, -⟩; cases h)]
    cases env.chdir cwd (cdTarget env toks) <;> rfl
  · rw [if_neg h1, if_neg h1]
    by_cases h2 : base ∈ IGNORE_LIST
    · rw [if_pos h2, if_pos h2, if_neg (by rintro ⟨h, -⟩; cases h)]
      rfl
    · rw [if_neg h2, if_neg h2]
      by_cases h3 : (env.exec ui).1 ≠ 0
      · rw [if_pos h3]
        by_cases h4 : env.agentMode
        · have hcap : CmdClass.capturable = CmdClass.capturable ∧ (env.exec ui).1 ≠ 0 ∧
              (env.agentMode = true ∨ pyLower env.confirm = "y") := ⟨rfl, h3, Or.inl h4⟩
          rw [if_pos h4, if_pos hcap]; rfl
        · rw [if_neg h4]
          by_cases h5 : pyLower env.confirm = "y"
          · have hcap : CmdClass.capturable = CmdClass.capturable ∧ (env.exec ui).1 ≠ 0 ∧
                (env.agentMode = true ∨ pyLower env.confirm = "y") := ⟨rfl, h3, Or.inr h5⟩
            rw [if_pos h5, if_pos hcap]; rfl
          · have hcap : ¬(CmdClass.capturable = CmdClass.capturable ∧ (env.exec ui).1 ≠ 0 ∧
                (env.agentMode = true ∨ pyLower env.confirm = "y")) := by
              rintro ⟨-, -, h | h⟩
              · exact h4 h
              · exact h5 h
            rw [if_neg h5, if_neg hcap]
            rfl
      · have hcap : ¬(CmdClass.capturable = CmdClass.capturable ∧ (env.exec ui).1 ≠ 0 ∧
            (env.agentMode = true ∨ pyLower env.confirm = "y")) := fun h => h3 h.2.1
        rw [if_neg h3, if_neg hcap]
        rfl

theorem cdTargetUsed_dispatch (env : Env) (cwd ui : String) (toks : List String) :
    cdTargetUsed (dispatch env cwd ui toks "cd") = some (cdTarget env toks) := by
  unfold dispatch
  rw [if_pos rfl]
  cases env.chdir cwd (cdTarget env toks) <;> rfl

/-- C1: in every `main`-loop iteration the Advisory Client is consulted
exactly once if the dispatched command is classified capturable and its
capturing execution exits nonzero, and never otherwise — in particular
never on a zero exit code, never for the `cd` built-in, and never for a
raw-terminal allow-list command, whatever its exit code. -/
theorem advisory_iff_capturable_failure (env : Env) (stale : List String)
    (cwd raw : String) :
    countAsk (mainStep env stale cwd raw).events =
      match mainBase env raw with
      | some base =>
          if classify base = CmdClass.capturable ∧ (env.exec (pyStrip raw)).1 ≠ 0
          then 1 else 0
      | none => 0 := by
  cases hb : mainBase env raw with
  | none => rw [mainStep_events_of_none hb]; rfl
  | some base =>
    rw [mainStep_eq_dispatch hb]
    exact countAsk_dispatch env cwd (pyStrip raw) (tokensOf env stale (pyStrip raw)) base

/-- C2, counterexample: `run_interactive` does not return the child's
real exit code after a successful spawn — when the child exits with
status 5 the function still returns `(0, "")` (lsh.py line 70 discards
the `subprocess.run` result). -/
theorem run_interactive_not_child_code :
    run_interactive (SpawnResult.ok 5) ≠ (5, "") := by decide

/-- C2 (amended): `run_interactive` returns exit code 127 when the
executable cannot be located, 1 on any other spawn failure, and 0 after
any successful spawn, regardless of the child's real exit code. -/
theorem run_interactive_exit_codes :
    (run_interactive SpawnResult.notFound).1 = 127
    ∧ (run_interactive SpawnResult.error).1 = 1
    ∧ ∀ c : Int, (run_interactive (SpawnResult.ok c)).1 = 0 :=
  ⟨rfl, rfl, fun _ => rfl⟩

/-- Environment for the concrete `cd` scenarios: `shlex.split` of
`cd ~/docs` yields `["cd", "~/docs"]`, the directory change succeeds and
records its target, and the user's home directory is `/home/user`. -/
def cdEnv : Env where
  shlexSplit := fun _ => some ["cd", "~/docs"]
  exec := fun _ => (0, "")
  spawn := fun _ => SpawnResult.ok 0
  llm := fun _ => ""
  chdir := fun _ t => some t
  home := "/home/user"
  confirm := ""
  agentMode := false

/-- C3, counterexample: on input `cd ~/docs` the target handed to the
directory change is the raw token `~/docs`, not its home expansion
`/home/user/docs` — the one-argument form of `cd` is not home-expanded
(lsh.py line 164 applies `expanduser` only in the zero-argument case). -/
theorem cd_one_arg_not_expanded :
    cdTargetUsed (mainStep cdEnv [] "/start" "cd ~/docs") = some "~/docs"
    ∧ expanduserSpec cdEnv.home "~/docs" = "/home/user/docs"
    ∧ cdTargetUsed (mainStep cdEnv [] "/start" "cd ~/docs")
        ≠ some (expanduserSpec cdEnv.home "~/docs") := by
  refine ⟨by decide, by decide, by decide⟩

/-- C3 (amended): for the built-in `cd` with one argument the target of
the directory change is the argument verbatim, with no tilde expansion;
with zero arguments the target is the user's home directory (the
expansion of `~`). -/
theorem cd_target_resolution (env : Env) (stale : List String) (cwd raw a : String)
    (h0 : pyStrip raw ≠ "") (h1 : pyStrip raw ≠ "exit") (h2 : pyStrip raw ≠ "quit") :
    (env.shlexSplit (pyStrip raw) = some ["cd", a] →
        cdTargetUsed (mainStep env stale cwd raw) = some a)
    ∧ (env.shlexSplit (pyStrip raw) = some ["cd"] →
        cdTargetUsed (mainStep env stale cwd raw) = some env.home) := by
  constructor
  · intro hs
    rw [mainStep_eq_dispatch (mainBase_eq_of_shlex h0 h1 h2 hs)]
    have ht : tokensOf env stale (pyStrip raw) = ["cd", a] := by
      unfold tokensOf; rw [hs]
    rw [ht, cdTargetUsed_dispatch]
    rfl
  · intro hs
    rw [mainStep_eq_dispatch (mainBase_eq_of_shlex h0 h1 h2 hs)]
    have ht : tokensOf env stale (pyStrip raw) = ["cd"] := by
      unfold tokensOf; rw [hs]
    rw [ht, cdTargetUsed_dispatch]
    rfl

/-- Witness for C3 (amended) at the concrete input `cd ~/docs`. -/
theorem cd_target_resolution_witness :
    cdTargetUsed (mainStep cdEnv [] "/start" "cd ~/docs") = some "~/docs" :=
  (cd_target_resolution cdEnv [] "/start" "cd ~/docs" "~/docs"
    (by decide) (by decide) (by decide)).1 rfl

/-- C4: in the `run_capturing` relay loop, the bytes written to the live
standard output and the bytes accumulated into the capture buffer that is
later decoded and returned are identical, byte for byte and in order, for
every schedule of poll iterations (including early end-of-file, death
drains, and I/O-error truncation). -/
theorem capture_display_eq_buffer (sched : List PollIter) :
    (run_capturing_loop sched).1 = (run_capturing_loop sched).2 := by
  induction sched with
  | nil => rfl
  | cons it rest ih =>
    unfold run_capturing_loop
    by_cases h1 : it.ready
    · by_cases h2 : it.readData = []
      · rw [if_pos h1, if_pos h2]
      · by_cases h3 : it.dead
        · rw [if_pos h1, if_neg h2, if_pos h3]
        · rw [if_pos h1, if_neg h2, if_neg h3]
          simpa using ih
    · by_cases h3 : it.dead
      · rw [if_neg h1, if_pos h3]
      · rw [if_neg h1, if_neg h3]
        exact ih

/-- C5: `extract_code_block` is total, and when the oracle response
contains exactly one fenced code block (optionally tagged `bash` or `sh`)
it returns that block's interior stripped of surrounding whitespace, while
a response with no fenced block is returned whole, stripped. -/
theorem extract_code_block_spec (text : String) :
    (∀ b : List Char, findBlocks text.data = [b] →
        extract_code_block text = String.mk (pyStripList b))
    ∧ (findBlocks text.data = [] → extract_code_block text = pyStrip text) := by
  constructor
  · intro b hb
    unfold extract_code_block
    rw [hb]
  · intro hb
    unfold extract_code_block
    rw [hb]
    rfl

/-- Witness for C5: a response with exactly one `bash`-tagged block
extracts to the trimmed interior, and an unfenced response extracts to
the whole trimmed text. -/
theorem extract_code_block_spec_witness :
    extract_code_block "Here:\n```bash\nls -l\n```\nDone" = "ls -l"
    ∧ extract_code_block "  plain fix  " = "plain fix" := by
  constructor
  · rw [(extract_code_block_spec "Here:\n```bash\nls -l\n```\nDone").1
        ("ls -l\n".data) (by decide)]
    decide
  · rw [(extract_code_block_spec "  plain fix  ").2 (by decide)]
    decide

/-- C6: in agent mode a failing capturable command leads to exactly one
re-execution of the extracted fix candidate and exactly one advisory
consultation in the iteration — the re-execution's own result is never
fed into a further advisory round, even when it exits nonzero. -/
theorem agent_mode_single_reexec (env : Env) (stale : List String)
    (cwd raw base : String)
    (hA : env.agentMode = true)
    (hb : mainBase env raw = some base)
    (hcap : classify base = CmdClass.capturable)
    (hfail : (env.exec (pyStrip raw)).1 ≠ 0) :
    countFix (mainStep env stale cwd raw).events = 1
    ∧ countAsk (mainStep env stale cwd raw).events = 1 := by
  rw [mainStep_eq_dispatch hb]
  constructor
  · rw [countFix_dispatch]
    rw [if_pos ⟨hcap, hfail, Or.inl hA⟩]
  · rw [countAsk_dispatch]
    rw [if_pos ⟨hcap, hfail⟩]

/-- Environment for the agent-mode witness: every capturing execution —
including the re-execution of the fix candidate — fails with exit code 2. -/
def agentEnv : Env where
  shlexSplit := fun s => some [s]
  exec := fun _ => (2, "boom")
  spawn := fun _ => SpawnResult.ok 0
  llm := fun _ => "```bash\nls\n```"
  chdir := fun _ t => some t
  home := "/home/user"
  confirm := ""
  agentMode := true

/-- Witness for C6 at the concrete failing input `lsa`, in an environment
in which the re-executed fix also exits nonzero. -/
theorem agent_mode_single_reexec_witness :
    countFix (mainStep agentEnv [] "/" "lsa").events = 1
    ∧ countAsk (mainStep agentEnv [] "/" "lsa").events = 1 :=
  agent_mode_single_reexec agentEnv [] "/" "lsa" "lsa"
    rfl (by decide) (by decide) (by decide)

/-- C7: in interactive mode (agent mode off), whenever the confirmation
input does not case-fold to the single affirmative character `y`, the fix
candidate is never executed; in particular empty input declines. -/
theorem decline_blocks_reexec (env : Env) (stale : List String) (cwd raw : String)
    (hA : env.agentMode = false)
    (hC : pyLower env.confirm ≠ "y") :
    countFix (mainStep env stale cwd raw).events = 0 := by
  cases hb : mainBase env raw with
  | none => rw [mainStep_events_of_none hb]; rfl
  | some base =>
    rw [mainStep_eq_dispatch hb, countFix_dispatch]
    rw [if_neg ?_]
    rintro ⟨-, -, h | h⟩
    · rw [hA] at h; cases h
    · exact hC h

/-- Environment for the decline witness: agent mode off, a failing
capturable command, and an empty confirmation input (the `[y/N]` default). -/
def declineEnv : Env where
  shlexSplit := fun s => some [s]
  exec := fun _ => (2, "boom")
  spawn := fun _ => SpawnResult.ok 0
  llm := fun _ => "```bash\nls\n```"
  chdir := fun _ t => some t
  home := "/home/user"
  confirm := ""
  agentMode := false

/-- Witness for C7 at the concrete failing input `lsa` with the empty
confirmation input: the fix candidate is not executed. -/
theorem decline_blocks_reexec_witness :
    countFix (mainStep declineEnv [] "/" "lsa").events = 0 :=
  decline_blocks_reexec declineEnv [] "/" "lsa" rfl (by decide)

/-- C8: the advisory prompt embeds the failed command verbatim between
its fixed delimiters, states the exit code, and embeds exactly the
truncated output, where the truncation keeps the tail of the output —
the last 2000 characters, the whole output when it has at most 2000
characters (it is a suffix of the captured output of length
`min (length output) 2000`). -/
theorem advisory_prompt_structure (cmd out : String) (code : Int) :
    (∃ u v, (ask_llm_prompt cmd out code).data
        = u ++ ("Command: `" ++ cmd ++ "`\n").data ++ v)
    ∧ (∃ u v, (ask_llm_prompt cmd out code).data
        = u ++ ("Exit Code: " ++ toString code ++ "\n").data ++ v)
    ∧ (∃ u v, (ask_llm_prompt cmd out code).data
        = u ++ (pyTruncate out).data ++ v)
    ∧ (pyTruncate out).data = out.data.drop (out.data.length - 2000)
    ∧ (∃ u, out.data = u ++ (pyTruncate out).data)
    ∧ (pyTruncate out).length = min out.length 2000 := by
  have hdrop : (pyTruncate out).data = out.data.drop (out.data.length - 2000) := by
    obtain ⟨l⟩ := out
    unfold pyTruncate
    by_cases h : String.length (String.mk l) > 2000
    · rw [if_pos h]
    · rw [if_neg h]
      have hl : l.length ≤ 2000 := by
        simpa [String.length] using h
      have hz : l.length - 2000 = 0 := by omega
      show l = List.drop (l.length - 2000) l
      rw [hz, List.drop_zero]
  refine ⟨?_, ?_, ?_, hdrop, ?_, ?_⟩
  · refine ⟨("You are a helpful shell assistant.\n".data
        ++ "The user ran this command and it failed:\n".data),
      (("Exit Code: " ++ toString code ++ "\n").data
        ++ ("Output/Error (last 1000 chars):\n```\n" ++ pyTruncate out ++ "\n```\n\n").data
        ++ "Provide ONLY the corrected shell command inside a ```bash``` code block. Do not explain unless necessary. If the command was a typo, fix the typo.".data), ?_⟩
    simp [ask_llm_prompt, data_append, List.append_assoc]
  · refine ⟨("You are a helpful shell assistant.\n".data
        ++ "The user ran this command and it failed:\n".data
        ++ ("Command: `" ++ cmd ++ "`\n").data),
      (("Output/Error (last 1000 chars):\n```\n" ++ pyTruncate out ++ "\n```\n\n").data
        ++ "Provide ONLY the corrected shell command inside a ```bash``` code block. Do not explain unless necessary. If the command was a typo, fix the typo.".data), ?_⟩
    simp [ask_llm_prompt, data_append, List.append_assoc]
  · refine ⟨("You are a helpful shell assistant.\n".data
        ++ "The user ran this command and it failed:\n".data
        ++ ("Command: `" ++ cmd ++ "`\n").data
        ++ ("Exit Code: " ++ toString code ++ "\n").data
        ++ "Output/Error (last 1000 chars):\n```\n".data),
      ("\n```\n\n".data
        ++ "Provide ONLY the corrected shell command inside a ```bash``` code block. Do not explain unless necessary. If the command was a typo, fix the typo.".data), ?_⟩
    simp [ask_llm_prompt, data_append, List.append_assoc]
  · refine ⟨out.data.take (out.data.length - 2000), ?_⟩
    rw [hdrop]
    exact (List.take_append_drop (out.data.length - 2000) out.data).symm
  · have hlen : (pyTruncate out).data.length = out.data.length - (out.data.length - 2000) := by
      rw [hdrop, List.length_drop]
    show (pyTruncate out).data.length = min out.data.length 2000
    omega

/-- Environment for the `cd` failure scenario: the target directory does
not exist, so `os.chdir` raises. -/
def cdFailEnv : Env where
  shlexSplit := fun _ => some ["cd", "/nonexistent"]
  exec := fun _ => (0, "")
  spawn := fun _ => SpawnResult.ok 0
  llm := fun _ => ""
  chdir := fun _ _ => none
  home := "/home/user"
  confirm := ""
  agentMode := false

/-- C9: when the built-in `cd` fails, the iteration reports the error
inline (a single directory-change-failure event), leaves the session's
working directory unchanged, and does not terminate the session loop. -/
theorem cd_failure_keeps_session (env : Env) (stale : List String)
    (cwd raw t : String)
    (h0 : pyStrip raw ≠ "") (h1 : pyStrip raw ≠ "exit") (h2 : pyStrip raw ≠ "quit")
    (hs : env.shlexSplit (pyStrip raw) = some ["cd", t])
    (hc : env.chdir cwd t = none) :
    mainStep env stale cwd raw = StepResult.mk cwd [Event.chdirErr t] false := by
  rw [mainStep_eq_dispatch (mainBase_eq_of_shlex h0 h1 h2 hs)]
  have ht : tokensOf env stale (pyStrip raw) = ["cd", t] := by
    unfold tokensOf; rw [hs]
  rw [ht]
  unfold dispatch
  rw [if_pos rfl]
  have htgt : cdTarget env ["cd", t] = t := rfl
  rw [htgt, hc]

/-- Witness for C9 at the concrete input `cd /nonexistent`. -/
theorem cd_failure_keeps_session_witness :
    mainStep cdFailEnv [] "/home/user" "cd /nonexistent"
      = StepResult.mk "/home/user" [Event.chdirErr "/nonexistent"] false :=
  cd_failure_keeps_session cdFailEnv [] "/home/user" "cd /nonexistent" "/nonexistent"
    (by decide) (by decide) (by decide) rfl rfl

/-- C10: when the oracle response contains more than one fenced code
block, `extract_code_block` returns the trimmed interior of the first
block in textual order. -/
theorem extract_first_of_many (text : String) (b b2 : List Char)
    (rest : List (List Char))
    (h : findBlocks text.data = b :: b2 :: rest) :
    extract_code_block text = String.mk (pyStripList b) := by
  unfold extract_code_block
  rw [h]

/-- Witness for C10: a response with an `sh` block followed by a `bash`
block extracts to the first block's trimmed interior. -/
theorem extract_first_of_many_witness :
    extract_code_block "```sh\na\n``` mid ```bash\nb\n```" = "a" := by
  rw [extract_first_of_many "```sh\na\n``` mid ```bash\nb\n```"
      ("a\n".data) ("b\n".data) [] (by decide)]
  decide

end Lsh
